import Mathlib

/-
Shallow embedding of the callback-dispatch and syscall-abstraction core of
the Tock kernel fork (src/kernel/src/callback.rs, src/kernel/src/syscall.rs).

Modelling conventions:
- `usize` values are `Nat` (no arithmetic is performed on them, so no
  wraparound is involved).
- The process-table collaborator is external to the specified core; a
  `Process` is modelled by exactly the narrow interface the core consumes:
  `schedule : FunctionCall -> Bool`, `flash_non_protected_start`,
  `flash_end`.
- Rust `panic!` is modelled as the error case of `Except KErr`; an
  out-of-bounds slice index (which would also panic in Rust) is the
  distinct error `KErr.oobIndex`, produced by the fallible indexing
  function `tableIndex` that embeds `self.kernel.processes[idx]`.
- Observable external effects of dispatch (the delegated call to a
  process's `schedule`, or the synchronous invocation of a typed kernel
  function) are recorded in an event trace; a typed kernel function
  `fn(usize, usize, usize, usize)` is identified by an opaque token `Nat`
  and its invocation is the trace event carrying its token and arguments.
- `Callback::schedule` takes `&mut self` in the source, so its embedding
  threads the callback value: it returns the post-state of `self` next to
  the boolean result and the trace.
-/

namespace Tock

/-- FunctionCall (src/kernel/src/process.rs collaborator value): four
register words plus the target instruction address, exactly as built by
`Callback::schedule`. -/
structure FunctionCall where
  r0 : Nat
  r1 : Nat
  r2 : Nat
  r3 : Nat
  pc : Nat
deriving Repr, DecidableEq

/-- The external process-table collaborator, reduced to the narrow
interface `callback.rs` consumes: `schedule(FunctionCall) -> bool`,
`flash_non_protected_start()`, `flash_end()`. -/
structure Process where
  schedule : FunctionCall → Bool
  flash_non_protected_start : Nat
  flash_end : Nat

/-- The kernel as seen by `callback.rs`: an indexable sequence of
optional process slots (`self.kernel.processes`). -/
structure Kernel where
  processes : List (Option Process)

/-- Userspace app identifier (struct `AppId`). -/
structure AppId where
  idx : Nat
  kernel : Kernel

/-- Source: `const KERNEL_APPID_BOUNDARY: usize = 100;` -/
def KERNEL_APPID_BOUNDARY : Nat := 100

def AppId.new (kernel : Kernel) (idx : Nat) : AppId :=
  { idx := idx, kernel := kernel }

def AppId.kernel_new (kernel : Kernel) (idx : Nat) : AppId :=
  { idx := idx, kernel := kernel }

/-- Source: `pub const fn is_kernel(self) -> bool { self.idx >= KERNEL_APPID_BOUNDARY }` -/
def AppId.is_kernel (self : AppId) : Bool :=
  decide (self.idx ≥ KERNEL_APPID_BOUNDARY)

/-- Source: `pub const fn is_kernel_idx(idx: usize) -> bool { idx >= KERNEL_APPID_BOUNDARY }` -/
def AppId.is_kernel_idx (idx : Nat) : Bool :=
  decide (idx ≥ KERNEL_APPID_BOUNDARY)

/-- Dispatch errors: an explicit `panic!` in the source, or the panic a
Rust slice index `processes[i]` would raise when out of bounds. -/
inductive KErr where
  | panicked (msg : String)
  | oobIndex (i : Nat)
deriving Repr, DecidableEq

/-- Embedding of the Rust slice indexing `processes[i]`: returns the slot
when `i` is in bounds and the out-of-bounds panic otherwise. -/
def tableIndex : List (Option Process) → Nat → Except KErr (Option Process)
  | [], i => .error (.oobIndex i)
  | s :: _, 0 => .ok s
  | _ :: rest, Nat.succ i => tableIndex rest i

/-- Method `AppId::get_editable_flash_range`: the bounds check, then the slot
match, then delegation to the occupying process's flash accessors. -/
def AppId.get_editable_flash_range (self : AppId) : Except KErr (Nat × Nat) :=
  if self.idx ≥ self.kernel.processes.length then
    .ok (0, 0)
  else
    match tableIndex self.kernel.processes self.idx with
    | .error e => .error e
    | .ok none => .ok (0, 0)
    | .ok (some p) => .ok (p.flash_non_protected_start, p.flash_end)

/-- enum `RustOrRawFnPtr`: `Raw { ptr: NonNull<*mut ()> }` carries the raw
pointer's address; `Rust { func: fn(usize, usize, usize, usize) }` carries
the opaque token of the typed kernel function. -/
inductive RustOrRawFnPtr where
  | Raw (ptr : Nat)
  | Rust (func : Nat)
deriving Repr, DecidableEq

/-- struct `Callback`. -/
structure Callback where
  kernel : Kernel
  app_id : AppId
  appdata : Nat
  fn_ptr : RustOrRawFnPtr

/-- Constructor `Callback::new`: the raw-pointer constructor. -/
def Callback.new (kernel : Kernel) (appid : AppId) (appdata : Nat)
    (fn_ptr : Nat) : Callback :=
  { kernel := kernel, app_id := appid, appdata := appdata,
    fn_ptr := RustOrRawFnPtr.Raw fn_ptr }

/-- Constructor `Callback::kernel_new`: the typed-function constructor; `appdata` is
the literal 0 in the source. -/
def Callback.kernel_new (kernel : Kernel) (appid : AppId)
    (fn_ptr : Nat) : Callback :=
  { kernel := kernel, app_id := appid, appdata := 0,
    fn_ptr := RustOrRawFnPtr.Rust fn_ptr }

/-- Observable external effects of a dispatch: the synchronous invocation
of a typed kernel function with its four arguments, or the forwarding of a
FunctionCall to the process occupying table slot `idx`. -/
inductive Event where
  | kernelCall (func r0 r1 r2 r3 : Nat)
  | procSchedule (idx : Nat) (fc : FunctionCall)
deriving Repr, DecidableEq

/-- Method `Callback::schedule(&mut self, r0, r1, r2) -> bool`. The result
carries the boolean, the post-state of `self`, and the trace of external
effects; `panic!` arms are the `Except` error case. -/
def Callback.schedule (self : Callback) (r0 r1 r2 : Nat) :
    Except KErr (Bool × Callback × List Event) :=
  if self.app_id.is_kernel then
    match self.fn_ptr with
    | RustOrRawFnPtr.Raw ptr =>
        .error (.panicked
          ("Attempt to rust_call a raw function pointer: ptr " ++ toString ptr))
    | RustOrRawFnPtr.Rust func =>
        .ok (true, self, [Event.kernelCall func r0 r1 r2 self.appdata])
  else
    match self.fn_ptr with
    | RustOrRawFnPtr.Raw ptr =>
        if self.app_id.idx ≥ self.kernel.processes.length then
          .ok (false, self, [])
        else
          match tableIndex self.kernel.processes self.app_id.idx with
          | .error e => .error e
          | .ok none => .ok (false, self, [])
          | .ok (some p) =>
              let fc : FunctionCall :=
                { r0 := r0, r1 := r1, r2 := r2, r3 := self.appdata, pc := ptr }
              .ok (p.schedule fc, self, [Event.procSchedule self.app_id.idx fc])
    | RustOrRawFnPtr.Rust func =>
        .error (.panicked
          ("Attempt to schedule rust function: func " ++ toString func))

/-- enum `Syscall` (src/kernel/src/syscall.rs). -/
inductive Syscall where
  | YIELD
  | SUBSCRIBE
  | COMMAND
  | ALLOW
  | MEMOP
deriving Repr, DecidableEq

/-- The numeric discriminants assigned in the source
(`YIELD = 0, ..., MEMOP = 4`). -/
def Syscall.toNat : Syscall → Nat
  | .YIELD => 0
  | .SUBSCRIBE => 1
  | .COMMAND => 2
  | .ALLOW => 3
  | .MEMOP => 4

/-- trait `SyscallInterface`, parametric in the architecture's saved
stack-pointer type: syscall detection, decoding (an `Option Syscall`, so
an unrecognized number is absence), the four data words, stack-frame
rewriting, and the context switch returning the updated stack pointer. -/
structure SyscallInterface (SP : Type) where
  get_syscall_fired : Bool
  get_syscall_number : SP → Option Syscall
  get_syscall_data : SP → Nat × Nat × Nat × Nat
  replace_function_call : SP → FunctionCall → Unit
  switch_to_process : SP → SP

/-- The pairing invariant of the spec: a kernel identity carries the
typed-function payload, a process identity carries the raw-pointer
payload. -/
def RustOrRawFnPtr.isRustFn : RustOrRawFnPtr → Bool
  | .Rust _ => true
  | .Raw _ => false

def Callback.pairingOk (c : Callback) : Bool :=
  if c.app_id.is_kernel then c.fn_ptr.isRustFn else !c.fn_ptr.isRustFn

/-- Detector of the out-of-bounds indexing error among dispatch
outcomes. -/
def noOobError : Except KErr (Bool × Callback × List Event) → Bool
  | .error (.oobIndex _) => false
  | _ => true

def noOobErrorRange : Except KErr (Nat × Nat) → Bool
  | .error (.oobIndex _) => false
  | _ => true

/-! Concrete fixtures used by witnesses: a two-slot table with slot 0
occupied by a process that accepts every FunctionCall and slot 1 empty. -/

def pTrue : Process :=
  { schedule := fun _ => true, flash_non_protected_start := 4096,
    flash_end := 8192 }

def kEmpty : Kernel := { processes := [] }

def kTwo : Kernel := { processes := [some pTrue, none] }

/-! Helper lemmas about the fallible table indexing. -/

theorem tableIndex_lt_of_ok {l : List (Option Process)} {i : Nat}
    {s : Option Process} (h : tableIndex l i = .ok s) : i < l.length := by
  induction l generalizing i with
  | nil => simp [tableIndex] at h
  | cons hd tl ih =>
    cases i with
    | zero => simp
    | succ j =>
      have h' : tableIndex tl j = .ok s := h
      have := ih h'
      simpa using Nat.succ_lt_succ this

theorem tableIndex_ok_of_lt {l : List (Option Process)} {i : Nat}
    (h : i < l.length) : ∃ s, tableIndex l i = .ok s := by
  induction l generalizing i with
  | nil => simp at h
  | cons hd tl ih =>
    cases i with
    | zero => exact ⟨hd, rfl⟩
    | succ j =>
      have h' : j < tl.length := by simpa using Nat.lt_of_succ_lt_succ h
      exact ih h'

/-- Claim C7: `is_kernel()` on an identity with index `i` is true iff
`i ≥ 100`, the static `is_kernel_idx i` returns the same boolean, and for
every `i < 100` both are false. Both are pure functions of the index. -/
theorem is_kernel_boundary (k : Kernel) (i : Nat) :
    ((AppId.new k i).is_kernel = true ↔ i ≥ 100)
  ∧ (AppId.is_kernel_idx i = (AppId.new k i).is_kernel)
  ∧ (i < 100 →
      (AppId.new k i).is_kernel = false ∧ AppId.is_kernel_idx i = false) := by
  refine ⟨?_, rfl, ?_⟩
  · simp [AppId.new, AppId.is_kernel, KERNEL_APPID_BOUNDARY]
  · intro h
    constructor <;>
      simp [AppId.new, AppId.is_kernel, AppId.is_kernel_idx,
        KERNEL_APPID_BOUNDARY] <;> omega

theorem is_kernel_boundary_witness :
    (AppId.new kEmpty 5).is_kernel = false ∧ AppId.is_kernel_idx 5 = false :=
  (is_kernel_boundary kEmpty 5).2.2 (by decide)

/-- Claim C8: `Syscall` is a closed enumeration of exactly the five
members with discriminants YIELD = 0, SUBSCRIBE = 1, COMMAND = 2,
ALLOW = 3, MEMOP = 4, and the decoding operation of every
`SyscallInterface` implementation returns an `Option Syscall`, so an
unrecognized number is represented as `none` rather than an extra
enumeration member. -/
theorem syscall_closed_enum :
    (Syscall.toNat .YIELD = 0 ∧ Syscall.toNat .SUBSCRIBE = 1
      ∧ Syscall.toNat .COMMAND = 2 ∧ Syscall.toNat .ALLOW = 3
      ∧ Syscall.toNat .MEMOP = 4)
  ∧ (∀ s : Syscall, s = .YIELD ∨ s = .SUBSCRIBE ∨ s = .COMMAND
      ∨ s = .ALLOW ∨ s = .MEMOP)
  ∧ (∀ (SP : Type) (arch : SyscallInterface SP) (sp : SP),
      arch.get_syscall_number sp = none
      ∨ ∃ s : Syscall, arch.get_syscall_number sp = some s) := by
  refine ⟨by decide, ?_, ?_⟩
  · intro s
    cases s <;> simp
  · intro SP arch sp
    cases h : arch.get_syscall_number sp
    · exact Or.inl rfl
    · exact Or.inr ⟨_, rfl⟩

/-- Claim C5, counterexample: `Callback::new` applied to a kernel
identity (index 100) builds a Callback whose identity is a kernel
identity but whose payload is the raw-pointer form — the constructors do
not enforce the pairing invariant. -/
theorem constructor_pairing_cex :
    (Callback.new kEmpty (AppId.new kEmpty 100) 0 9).app_id.is_kernel = true
  ∧ (Callback.new kEmpty (AppId.new kEmpty 100) 0 9).pairingOk = false := by
  exact ⟨rfl, rfl⟩

/-- Claim C5, amended: each constructor fixes the payload kind (`new`
always yields the raw-pointer payload, `kernel_new` always the
typed-function payload), so the pairing invariant holds exactly when the
constructor is applied to an identity of the matching kind; neither
constructor checks the identity kind itself. -/
theorem constructor_pairing (k : Kernel) (a : AppId) (d ptr f : Nat) :
    ((Callback.new k a d ptr).fn_ptr = RustOrRawFnPtr.Raw ptr)
  ∧ ((Callback.kernel_new k a f).fn_ptr = RustOrRawFnPtr.Rust f)
  ∧ (a.is_kernel = false → (Callback.new k a d ptr).pairingOk = true)
  ∧ (a.is_kernel = true → (Callback.kernel_new k a f).pairingOk = true) := by
  refine ⟨rfl, rfl, ?_, ?_⟩ <;> intro h <;>
    simp [Callback.new, Callback.kernel_new, Callback.pairingOk,
      RustOrRawFnPtr.isRustFn, h]

theorem constructor_pairing_witness :
    (Callback.new kEmpty (AppId.new kEmpty 0) 7 77).pairingOk = true
  ∧ (Callback.kernel_new kEmpty (AppId.new kEmpty 100) 5).pairingOk = true :=
  ⟨(constructor_pairing kEmpty (AppId.new kEmpty 0) 7 77 5).2.2.1 (by decide),
   (constructor_pairing kEmpty (AppId.new kEmpty 100) 7 77 5).2.2.2 (by decide)⟩

/-- Claim C6: `get_editable_flash_range` returns `(0, 0)` when the index
is at or beyond the table's length and when the indexed slot is empty,
and returns exactly `(flash_non_protected_start, flash_end)` of the
occupying process for an occupied in-bounds slot; it is a pure read of
the table. -/
theorem editable_flash_range_spec (a : AppId) (p : Process) :
    (a.kernel.processes.length ≤ a.idx →
      a.get_editable_flash_range = .ok (0, 0))
  ∧ (tableIndex a.kernel.processes a.idx = .ok none →
      a.get_editable_flash_range = .ok (0, 0))
  ∧ (tableIndex a.kernel.processes a.idx = .ok (some p) →
      a.get_editable_flash_range =
        .ok (p.flash_non_protected_start, p.flash_end)) := by
  refine ⟨?_, ?_, ?_⟩
  · intro h
    unfold AppId.get_editable_flash_range
    rw [if_pos h]
  · intro h
    have hlt := tableIndex_lt_of_ok h
    unfold AppId.get_editable_flash_range
    rw [if_neg (by omega), h]
  · intro h
    have hlt := tableIndex_lt_of_ok h
    unfold AppId.get_editable_flash_range
    rw [if_neg (by omega), h]

/-- Claim C1: on a Callback bound to a process identity (index < 100)
carrying the raw-pointer payload, with the index inside the table and
the slot occupied by process `p`, `schedule(r0, r1, r2)` forwards exactly
one FunctionCall `{r0, r1, r2, r3 = appdata, pc = raw pointer address}`
to that process's `schedule` and returns its boolean result unchanged. -/
theorem schedule_process_forwards (c : Callback) (r0 r1 r2 ptr : Nat)
    (p : Process)
    (hproc : c.app_id.idx < KERNEL_APPID_BOUNDARY)
    (hraw : c.fn_ptr = RustOrRawFnPtr.Raw ptr)
    (hlen : c.app_id.idx < c.kernel.processes.length)
    (hslot : tableIndex c.kernel.processes c.app_id.idx = .ok (some p)) :
    c.schedule r0 r1 r2 =
      .ok (p.schedule { r0 := r0, r1 := r1, r2 := r2, r3 := c.appdata, pc := ptr },
           c,
           [Event.procSchedule c.app_id.idx
             { r0 := r0, r1 := r1, r2 := r2, r3 := c.appdata, pc := ptr }]) := by
  unfold KERNEL_APPID_BOUNDARY at hproc
  have hk : c.app_id.is_kernel = false := by
    simp [AppId.is_kernel, KERNEL_APPID_BOUNDARY]
    omega
  have hnlen : ¬ c.app_id.idx ≥ c.kernel.processes.length := by omega
  simp only [Callback.schedule, hk, Bool.false_eq_true, if_false, hraw,
    hnlen, if_true, hslot]

theorem schedule_process_forwards_witness :
    (Callback.new kTwo (AppId.new kTwo 0) 7 77).schedule 10 20 30 =
      .ok (true, Callback.new kTwo (AppId.new kTwo 0) 7 77,
        [Event.procSchedule 0
          { r0 := 10, r1 := 20, r2 := 30, r3 := 7, pc := 77 }]) :=
  schedule_process_forwards (Callback.new kTwo (AppId.new kTwo 0) 7 77)
    10 20 30 77 pTrue (by decide) rfl (by decide) rfl

/-- Claim C2: on a Callback bound to a kernel identity (index ≥ 100)
carrying the typed-function payload `f`, `schedule(r0, r1, r2)` invokes
`f` synchronously with `(r0, r1, r2, appdata)` and returns true without
touching the process table; a Callback built with `kernel_new` has
context datum 0, so it calls `f(r0, r1, r2, 0)`. -/
theorem schedule_kernel_sync (c : Callback) (k : Kernel) (a : AppId)
    (r0 r1 r2 f : Nat)
    (hker : c.app_id.is_kernel = true)
    (hrust : c.fn_ptr = RustOrRawFnPtr.Rust f)
    (haker : a.is_kernel = true) :
    (c.schedule r0 r1 r2 =
      .ok (true, c, [Event.kernelCall f r0 r1 r2 c.appdata]))
  ∧ ((Callback.kernel_new k a f).appdata = 0)
  ∧ ((Callback.kernel_new k a f).schedule r0 r1 r2 =
      .ok (true, Callback.kernel_new k a f,
        [Event.kernelCall f r0 r1 r2 0])) := by
  refine ⟨?_, rfl, ?_⟩
  · simp only [Callback.schedule, hker, if_true, hrust]
  · simp only [Callback.schedule, Callback.kernel_new, haker, if_true]

theorem schedule_kernel_sync_witness :
    (Callback.kernel_new kTwo (AppId.kernel_new kTwo 100) 5).schedule 1 1 1 =
      .ok (true, Callback.kernel_new kTwo (AppId.kernel_new kTwo 100) 5,
        [Event.kernelCall 5 1 1 1 0]) :=
  (schedule_kernel_sync
    (Callback.kernel_new kTwo (AppId.kernel_new kTwo 100) 5)
    kTwo (AppId.kernel_new kTwo 100) 1 1 1 5
    (by decide) rfl (by decide)).2.2

/-- Claim C3: on a Callback bound to a process identity carrying the
raw-pointer payload, if the index is at or beyond the table's length or
the indexed slot is empty, `schedule` returns false, leaves the Callback
unchanged, and performs no external effect (no process is consulted). -/
theorem schedule_missing_false (c : Callback) (r0 r1 r2 ptr : Nat)
    (hproc : c.app_id.idx < KERNEL_APPID_BOUNDARY)
    (hraw : c.fn_ptr = RustOrRawFnPtr.Raw ptr)
    (hmiss : c.kernel.processes.length ≤ c.app_id.idx
      ∨ tableIndex c.kernel.processes c.app_id.idx = .ok none) :
    c.schedule r0 r1 r2 = .ok (false, c, []) := by
  unfold KERNEL_APPID_BOUNDARY at hproc
  have hk : c.app_id.is_kernel = false := by
    simp [AppId.is_kernel, KERNEL_APPID_BOUNDARY]
    omega
  rcases hmiss with h | h
  · simp only [Callback.schedule, hk, Bool.false_eq_true, if_false, hraw,
      ge_iff_le, h, if_true]
  · have hlt := tableIndex_lt_of_ok h
    have hnlen : ¬ c.app_id.idx ≥ c.kernel.processes.length := by omega
    simp only [Callback.schedule, hk, Bool.false_eq_true, if_false, hraw,
      hnlen, h]

theorem schedule_missing_false_witness :
    (Callback.new kTwo (AppId.new kTwo 1) 7 77).schedule 1 2 3 =
      .ok (false, Callback.new kTwo (AppId.new kTwo 1) 7 77, [])
  ∧ (Callback.new kTwo (AppId.new kTwo 5) 7 77).schedule 1 2 3 =
      .ok (false, Callback.new kTwo (AppId.new kTwo 5) 7 77, []) :=
  ⟨schedule_missing_false (Callback.new kTwo (AppId.new kTwo 1) 7 77)
      1 2 3 77 (by decide) rfl (Or.inr rfl),
   schedule_missing_false (Callback.new kTwo (AppId.new kTwo 5) 7 77)
      1 2 3 77 (by decide) rfl (Or.inl (by decide))⟩

/-- Claim C4: a payload/identity-kind mismatch is fatal: a kernel
identity with the raw-pointer payload, or a process identity with the
typed-function payload, makes `schedule` halt with a diagnostic naming
the mismatched pointer or function value; no boolean is returned and no
external effect happens. -/
theorem schedule_mismatch_fatal (c : Callback) (r0 r1 r2 : Nat) :
    (∀ ptr, c.app_id.is_kernel = true → c.fn_ptr = RustOrRawFnPtr.Raw ptr →
      c.schedule r0 r1 r2 = .error (.panicked
        ("Attempt to rust_call a raw function pointer: ptr " ++ toString ptr)))
  ∧ (∀ f, c.app_id.is_kernel = false → c.fn_ptr = RustOrRawFnPtr.Rust f →
      c.schedule r0 r1 r2 = .error (.panicked
        ("Attempt to schedule rust function: func " ++ toString f))) := by
  constructor <;> intro x hk hp <;>
    simp only [Callback.schedule, hk, hp, if_true, Bool.false_eq_true, if_false]

theorem schedule_mismatch_fatal_witness :
    (Callback.new kTwo (AppId.new kTwo 100) 0 9).schedule 1 2 3 =
      .error (.panicked "Attempt to rust_call a raw function pointer: ptr 9")
  ∧ (Callback.kernel_new kTwo (AppId.kernel_new kTwo 0) 5).schedule 1 2 3 =
      .error (.panicked "Attempt to schedule rust function: func 5") :=
  ⟨(schedule_mismatch_fatal (Callback.new kTwo (AppId.new kTwo 100) 0 9)
      1 2 3).1 9 (by decide) rfl,
   (schedule_mismatch_fatal (Callback.kernel_new kTwo (AppId.kernel_new kTwo 0) 5)
      1 2 3).2 5 (by decide) rfl⟩

/-- Claim C9: whenever `schedule` returns (does not panic), the Callback
itself — its identity, context datum and payload — is unchanged: the
post-state of `self` equals the input. The AppId accessors take `self`
immutably and are embedded as pure reads. -/
theorem schedule_frame (c : Callback) (r0 r1 r2 : Nat) (b : Bool)
    (c' : Callback) (evs : List Event)
    (h : c.schedule r0 r1 r2 = .ok (b, c', evs)) : c' = c := by
  unfold Callback.schedule at h
  split at h
  · split at h
    · cases h
    · simp only [Except.ok.injEq, Prod.mk.injEq] at h
      exact h.2.1.symm
  · split at h
    · split at h
      · simp only [Except.ok.injEq, Prod.mk.injEq] at h
        exact h.2.1.symm
      · split at h
        · cases h
        · simp only [Except.ok.injEq, Prod.mk.injEq] at h
          exact h.2.1.symm
        · simp only [Except.ok.injEq, Prod.mk.injEq] at h
          exact h.2.1.symm
    · cases h

theorem schedule_frame_witness :
    Callback.new kTwo (AppId.new kTwo 0) 7 77 =
      Callback.new kTwo (AppId.new kTwo 0) 7 77 :=
  schedule_frame (Callback.new kTwo (AppId.new kTwo 0) 7 77) 10 20 30
    true (Callback.new kTwo (AppId.new kTwo 0) 7 77)
    [Event.procSchedule 0 { r0 := 10, r1 := 20, r2 := 30, r3 := 7, pc := 77 }]
    rfl

/-- Claim C10: every table access in `get_editable_flash_range` and in
the process branch of `schedule` is dominated by an index-below-length
guard, so for every index (kernel pseudo-indices included) the embedded
fallible indexing never reaches its out-of-bounds error. -/
theorem no_oob_table_access (c : Callback) (a : AppId) (r0 r1 r2 : Nat) :
    noOobError (c.schedule r0 r1 r2) = true
  ∧ noOobErrorRange a.get_editable_flash_range = true := by
  constructor
  · unfold Callback.schedule
    split
    · split <;> simp [noOobError]
    · split
      · split
        · simp [noOobError]
        · rename_i hlen
          obtain ⟨s, hs⟩ := tableIndex_ok_of_lt (Nat.lt_of_not_le hlen)
          rw [hs]
          cases s <;> simp [noOobError]
      · simp [noOobError]
  · unfold AppId.get_editable_flash_range
    split
    · simp [noOobErrorRange]
    · rename_i hlen
      obtain ⟨s, hs⟩ := tableIndex_ok_of_lt (Nat.lt_of_not_le hlen)
      rw [hs]
      cases s <;> simp [noOobErrorRange]

theorem editable_flash_range_spec_witness :
    (AppId.new kTwo 5).get_editable_flash_range = .ok (0, 0)
  ∧ (AppId.new kTwo 1).get_editable_flash_range = .ok (0, 0)
  ∧ (AppId.new kTwo 0).get_editable_flash_range = .ok (4096, 8192) :=
  ⟨(editable_flash_range_spec (AppId.new kTwo 5) pTrue).1 (by decide),
   (editable_flash_range_spec (AppId.new kTwo 1) pTrue).2.1 rfl,
   (editable_flash_range_spec (AppId.new kTwo 0) pTrue).2.2 rfl⟩

end Tock
